import Mathlib

/-!
# Log monitor agent pipeline — shallow embedding

Shallow embedding of the log-monitor agent workflow
(`log_monitor_agent/agent.py`, `state.py`, `schemas.py`, `tools.py`).

The pipeline processes one log message through four stages:
classify → (diagnose → assess severity → {alert | ticket}) | no-action.

External model-backend behaviour (the LLM calls) is abstracted as an
`Env` record supplying, for one run, the outcome of each structured or
free-text model call; a raising call is `Except.error ()`.  The schemas
(`LogClassificationSchema`, `SeverityAssessmentSchema`) constrain the
structured outputs to their `Literal` enums, embedded here as inductive
types.  Each workflow node returns a partial state update (the Python
nodes return partial dicts merged by LangGraph) together with the list
of externally observable effects it performs (model invocations, Slack
alert, GitHub issue lookup/creation).  The run function follows the
edges of `build_workflow` literally.
-/

namespace LogMonitor

/-- The `Literal["error", "warning", "normal"]` enum of
`LogClassificationSchema.classification` (schemas.py). -/
inductive Classification where
  | error
  | warning
  | normal
deriving DecidableEq, Repr

/-- The string label carried into the state dict for a classification. -/
def Classification.toLabel : Classification → String
  | .error => "error"
  | .warning => "warning"
  | .normal => "normal"

/-- The `Literal["high", "low"]` enum of
`SeverityAssessmentSchema.severity` (schemas.py). -/
inductive Severity where
  | high
  | low
deriving DecidableEq, Repr

/-- The string label carried into the state dict for a severity. -/
def Severity.toLabel : Severity → String
  | .high => "high"
  | .low => "low"

/-- `AgentState` (state.py): the TypedDict threaded through the workflow.
`action_taken` is documented there as `"slack_alert"`, `"github_ticket"`,
or `"none"`. -/
structure AgentState where
  log_message : String
  classification : String
  diagnosis : String
  severity : String
  action_taken : String
deriving DecidableEq, Repr

/-- A partial state update, as returned by each LangGraph node
(the Python nodes return partial dicts; `none` = key absent). -/
structure Update where
  log_message : Option String := none
  classification : Option String := none
  diagnosis : Option String := none
  severity : Option String := none
  action_taken : Option String := none
deriving DecidableEq, Repr

/-- The LangGraph merge of a partial node update into the shared state. -/
def applyUpdate (s : AgentState) (u : Update) : AgentState where
  log_message := u.log_message.getD s.log_message
  classification := u.classification.getD s.classification
  diagnosis := u.diagnosis.getD s.diagnosis
  severity := u.severity.getD s.severity
  action_taken := u.action_taken.getD s.action_taken

/-- Externally observable effects of a run: model-backend invocations and
calls to the action collaborators (tools.py stubs). -/
inductive Effect where
  | llmClassify (prompt : String)
  | llmDiagnose (withTools : Bool) (toolGuidance : String) (prompt : String)
  | llmSeverity (prompt : String)
  | slackAlert (message severity diagnosis : String)
  | checkIssue (query : String)
  | createIssue (title body : String)
deriving DecidableEq, Repr

/-- Is this effect an invocation of the model backend? -/
def Effect.isModelCall : Effect → Bool
  | .llmClassify _ => true
  | .llmDiagnose _ _ _ => true
  | .llmSeverity _ => true
  | _ => false

/-- Is this effect a create-issue call to the issue tracker? -/
def Effect.isCreateIssue : Effect → Bool
  | .createIssue _ _ => true
  | _ => false

/-- Model-backend behaviour for one run: outcome of the structured
classification call, availability of the MCP tool set, outcome of the
diagnosis call (its final textual content), and outcome of the
structured severity call.  `Except.error ()` models a raised exception. -/
structure Env where
  classifyResult : Except Unit Classification
  mcpToolsOk : Bool
  diagnoseResult : Except Unit String
  severityResult : Except Unit Severity

/-- The emptiness test `not log_message or not log_message.strip()`
guarding `classify_log` (agent.py line 53): the string is empty, or
`strip()` leaves nothing, i.e. every character is whitespace. -/
def isBlank (s : String) : Bool :=
  s.data.all Char.isWhitespace

/-- The Python character slice `s[:n]` (used as `log_message[:50]` in
`manage_github_ticket`): the first `n` characters of the string. -/
def strTake (s : String) (n : Nat) : String :=
  ⟨s.data.take n⟩

/-- `get_research_tool_guidance` (tools.py): fixed non-empty guidance text
inserted into the diagnosis prompt when MCP tools are available.
Embedded abridged; only its non-emptiness matters to the pipeline. -/
def get_research_tool_guidance : String :=
  "\nYou have access to research tools that can help diagnose issues:\n" ++
  "- context7: real-time retrieval of up-to-date, version-specific library docs.\n" ++
  "- deepwiki: structured, summarized documentation about GitHub repositories.\n"

/-- The classification prompt built in `classify_log` (agent.py lines 60-70). -/
def classifyPrompt (log_message : String) : String :=
  "Analyze this server log message and classify it.\n\nLog message: " ++
  log_message ++
  "\n\nDetermine if this is an error, warning, or normal informational message.\n" ++
  "Look for indicators like:\n" ++
  "- ERROR, FAIL, Exception, stack traces → error\n" ++
  "- WARNING, WARN, threshold, approaching limit → warning\n" ++
  "- INFO, DEBUG, success, started, completed → normal\n\n" ++
  "Provide your classification with confidence score and the indicators you found."

/-- `classify_log` (agent.py lines 36-77): blank input short-circuits to
`classification = "normal"` with no model call; otherwise the label of
the structured call is recorded, and a raised call propagates. -/
def classify_log (env : Env) (state : AgentState) : Except Unit (Update × List Effect) :=
  if isBlank state.log_message then
    .ok ({ classification := some "normal" }, [])
  else
    match env.classifyResult with
    | .ok result =>
        .ok ({ classification := some result.toLabel },
             [.llmClassify (classifyPrompt state.log_message)])
    | .error e => .error e

/-- `should_continue_after_classify` (agent.py lines 80-95). -/
def should_continue_after_classify (state : AgentState) : String :=
  if state.classification = "error" || state.classification = "warning" then
    "diagnose"
  else
    "end"

/-- The diagnosis prompt built in `diagnose_problem` (agent.py lines 133-142). -/
def diagnosisPrompt (classification log_message tool_guidance : String) : String :=
  "Analyze this " ++ classification ++
  " log message and diagnose the root cause.\n\nLog message: " ++
  log_message ++ "\n" ++ tool_guidance ++
  "\nProvide a brief diagnosis explaining:\n1. What went wrong\n" ++
  "2. Likely root cause\n3. Potential impact\n\n" ++
  "Keep the diagnosis concise (1-2 sentences)."

/-- `diagnose_problem` (agent.py lines 98-149): tool acquisition failure is
absorbed (proceed with no tool bindings and empty guidance); the final
model content becomes `diagnosis`; a raised model call propagates. -/
def diagnose_problem (env : Env) (state : AgentState) : Except Unit (Update × List Effect) :=
  let withTools := env.mcpToolsOk
  let tool_guidance := if withTools then get_research_tool_guidance else ""
  match env.diagnoseResult with
  | .ok content =>
      .ok ({ diagnosis := some content },
           [.llmDiagnose withTools tool_guidance
              (diagnosisPrompt state.classification state.log_message tool_guidance)])
  | .error e => .error e

/-- The severity prompt built in `assess_severity` (agent.py lines 172-181). -/
def severityPrompt (log_message diagnosis : String) : String :=
  "Assess the severity of this problem.\n\nLog message: " ++
  log_message ++ "\nDiagnosis: " ++ diagnosis ++
  "\n\nDetermine if this is HIGH or LOW severity:\n" ++
  "- HIGH: Immediate user impact, service degradation, data loss risk, security issue\n" ++
  "- LOW: Can wait for normal business hours, minor inconvenience, cosmetic issue\n\n" ++
  "If uncertain, default to LOW severity."

/-- `assess_severity` (agent.py lines 152-193): on any raised structured
call, the failure is absorbed and `severity = "low"`. -/
def assess_severity (env : Env) (state : AgentState) : Update × List Effect :=
  let p := severityPrompt state.log_message state.diagnosis
  match env.severityResult with
  | .ok result => ({ severity := some result.toLabel }, [.llmSeverity p])
  | .error _ => ({ severity := some "low" }, [.llmSeverity p])

/-- `route_by_severity` (agent.py lines 196-210): `"high"` routes to the
alert stage, anything else (including the defensive default) to the
ticket stage. -/
def route_by_severity (state : AgentState) : String :=
  if state.severity = "high" then "alert_sre" else "manage_ticket"

/-- `alert_sre` (agent.py lines 213-237): composes the alert message and
sets `action_taken = "slack_alert"`. -/
def alert_sre (state : AgentState) : Update × List Effect :=
  ({ action_taken := some "slack_alert" },
   [.slackAlert ("High severity issue detected - " ++ state.diagnosis)
      state.severity state.diagnosis])

/-- `check_existing_github_issue` (tools.py lines 169-194): the stub
always returns `False`. -/
def check_existing_github_issue (_query : String) : Bool :=
  false

/-- `manage_github_ticket` (agent.py lines 240-268), parameterised by the
existing-issue collaborator `check` (instantiated with the stub in this
build): queries with the diagnosis, creates a new issue only when no
match exists, and sets `action_taken = "github_ticket"` in both branches. -/
def manage_github_ticket (check : String → Bool) (state : AgentState) :
    Update × List Effect :=
  let issue_exists := check state.diagnosis
  ({ action_taken := some "github_ticket" },
   if issue_exists then
     [.checkIssue state.diagnosis]
   else
     [.checkIssue state.diagnosis,
      .createIssue ("[Auto] " ++ strTake state.log_message 50 ++ "...")
        ("## Log Message\n" ++ state.log_message ++
         "\n\n## Diagnosis\n" ++ state.diagnosis)])

/-- `set_no_action` (agent.py lines 271-281). -/
def set_no_action (_state : AgentState) : Update × List Effect :=
  ({ action_taken := some "none" }, [])

/-- Names of the workflow nodes added in `build_workflow` (agent.py). -/
inductive Node where
  | classify
  | set_no_action
  | diagnose
  | assess_severity
  | alert_sre
  | manage_ticket
deriving DecidableEq, Repr

/-- Result of one completed run: final state, the executed path as a list
of (node, partial update it returned), and all effects in order. -/
structure RunResult where
  final : AgentState
  trace : List (Node × Update)
  effects : List Effect
deriving DecidableEq, Repr

/-- The initial state built in `process_log_message` (agent.py lines 376-382). -/
def initial_state (log_message : String) : AgentState where
  log_message := log_message
  classification := ""
  diagnosis := ""
  severity := ""
  action_taken := ""

/-- Execution of the compiled graph of `build_workflow` (agent.py lines
289-336): entry at classify; conditional edge by
`should_continue_after_classify` to diagnose or set_no_action; diagnose →
assess_severity; conditional edge by `route_by_severity` to alert_sre or
manage_ticket; all of set_no_action, alert_sre, manage_ticket terminal. -/
def runWorkflow (check : String → Bool) (env : Env) (s0 : AgentState) :
    Except Unit RunResult := do
  let (u1, e1) ← classify_log env s0
  let s1 := applyUpdate s0 u1
  if should_continue_after_classify s1 = "diagnose" then
    let (u2, e2) ← diagnose_problem env s1
    let s2 := applyUpdate s1 u2
    let (u3, e3) := assess_severity env s2
    let s3 := applyUpdate s2 u3
    if route_by_severity s3 = "alert_sre" then
      let (u4, e4) := alert_sre s3
      pure ⟨applyUpdate s3 u4,
            [(.classify, u1), (.diagnose, u2), (.assess_severity, u3), (.alert_sre, u4)],
            e1 ++ e2 ++ e3 ++ e4⟩
    else
      let (u4, e4) := manage_github_ticket check s3
      pure ⟨applyUpdate s3 u4,
            [(.classify, u1), (.diagnose, u2), (.assess_severity, u3), (.manage_ticket, u4)],
            e1 ++ e2 ++ e3 ++ e4⟩
  else
    let (u2, e2) := set_no_action s1
    pure ⟨applyUpdate s1 u2,
          [(.classify, u1), (.set_no_action, u2)],
          e1 ++ e2⟩

/-- `process_log_message` (agent.py lines 355-396): the public entry point;
runs the workflow on a fresh initial state.  The ticket stage uses the
stub issue lookup, as in this build. -/
def process_log_message (env : Env) (log_message : String) :
    Except Unit RunResult :=
  runWorkflow check_existing_github_issue env (initial_state log_message)

/-! ### Run shapes

The four possible shapes of a completed run, as functions of the input
and the environment; the characterization lemma `run_cases` below proves
every completed run is one of these. -/

/-- Run shape for a blank input: classify short-circuits to `"normal"`,
no-action terminal, no effects. -/
def blankRun (msg : String) : RunResult :=
  ⟨⟨msg, "normal", "", "", "none"⟩,
   [(.classify, { classification := some "normal" }),
    (.set_no_action, { action_taken := some "none" })],
   []⟩

/-- Run shape for a non-blank input classified `"normal"`. -/
def normalRun (msg : String) : RunResult :=
  ⟨⟨msg, "normal", "", "", "none"⟩,
   [(.classify, { classification := some "normal" }),
    (.set_no_action, { action_taken := some "none" })],
   [.llmClassify (classifyPrompt msg)]⟩

/-- The three model invocations common to both diagnosed run shapes. -/
def diagEffects (mcp : Bool) (msg : String) (c : Classification) (d : String) :
    List Effect :=
  [.llmClassify (classifyPrompt msg),
   .llmDiagnose mcp (if mcp then get_research_tool_guidance else "")
     (diagnosisPrompt c.toLabel msg (if mcp then get_research_tool_guidance else "")),
   .llmSeverity (severityPrompt msg d)]

/-- Run shape for a diagnosed problem assessed at high severity. -/
def alertRun (mcp : Bool) (msg d : String) (c : Classification) : RunResult :=
  ⟨⟨msg, c.toLabel, d, "high", "slack_alert"⟩,
   [(.classify, { classification := some c.toLabel }),
    (.diagnose, { diagnosis := some d }),
    (.assess_severity, { severity := some "high" }),
    (.alert_sre, { action_taken := some "slack_alert" })],
   diagEffects mcp msg c d ++
   [.slackAlert ("High severity issue detected - " ++ d) "high" d]⟩

/-- Run shape for a diagnosed problem assessed (or defaulted) at low
severity. -/
def ticketRun (check : String → Bool) (mcp : Bool) (msg d : String)
    (c : Classification) : RunResult :=
  ⟨⟨msg, c.toLabel, d, "low", "github_ticket"⟩,
   [(.classify, { classification := some c.toLabel }),
    (.diagnose, { diagnosis := some d }),
    (.assess_severity, { severity := some "low" }),
    (.manage_ticket, { action_taken := some "github_ticket" })],
   diagEffects mcp msg c d ++
   (if check d then [.checkIssue d]
    else [.checkIssue d,
          .createIssue ("[Auto] " ++ strTake msg 50 ++ "...")
            ("## Log Message\n" ++ msg ++ "\n\n## Diagnosis\n" ++ d)])⟩

/-! ### Path lemmas

One lemma per execution path of the compiled graph. -/

theorem run_blank (check : String → Bool) (env : Env) (msg : String)
    (h : isBlank msg = true) :
    runWorkflow check env (initial_state msg) = .ok (blankRun msg) := by
  have hc : classify_log env (initial_state msg) =
      .ok ({ classification := some "normal" }, []) := by
    unfold classify_log initial_state
    rw [h]
    rfl
  unfold runWorkflow
  rw [hc]
  rfl

theorem run_classify_raises (check : String → Bool) (env : Env) (msg : String)
    (h : isBlank msg = false) (hc : env.classifyResult = .error ()) :
    runWorkflow check env (initial_state msg) = .error () := by
  have hcl : classify_log env (initial_state msg) = .error () := by
    unfold classify_log initial_state
    rw [h, hc]
    rfl
  unfold runWorkflow
  rw [hcl]
  rfl

theorem classify_log_ok (cr : Classification) (mcp : Bool)
    (dr : Except Unit String) (sr : Except Unit Severity) (msg : String)
    (h : isBlank msg = false) :
    classify_log ⟨.ok cr, mcp, dr, sr⟩ (initial_state msg) =
      .ok ({ classification := some cr.toLabel },
           [.llmClassify (classifyPrompt msg)]) := by
  unfold classify_log initial_state
  rw [h]
  rfl

theorem run_normal (check : String → Bool) (mcp : Bool)
    (dr : Except Unit String) (sr : Except Unit Severity) (msg : String)
    (h : isBlank msg = false) :
    runWorkflow check ⟨.ok .normal, mcp, dr, sr⟩ (initial_state msg) =
      .ok (normalRun msg) := by
  have hcl := classify_log_ok .normal mcp dr sr msg h
  unfold runWorkflow
  rw [hcl]
  rfl

theorem run_diagnose_raises (check : String → Bool) (mcp : Bool)
    (sr : Except Unit Severity) (msg : String) (c : Classification)
    (h : isBlank msg = false) (hcw : c = .error ∨ c = .warning) :
    runWorkflow check ⟨.ok c, mcp, .error (), sr⟩ (initial_state msg) =
      .error () := by
  have hcl := classify_log_ok c mcp (.error ()) sr msg h
  unfold runWorkflow
  rw [hcl]
  rcases hcw with rfl | rfl <;> rfl

theorem run_sev_high (check : String → Bool) (mcp : Bool) (msg d : String)
    (c : Classification) (h : isBlank msg = false)
    (hcw : c = .error ∨ c = .warning) :
    runWorkflow check ⟨.ok c, mcp, .ok d, .ok .high⟩ (initial_state msg) =
      .ok (alertRun mcp msg d c) := by
  have hcl := classify_log_ok c mcp (.ok d) (.ok .high) msg h
  unfold runWorkflow
  rw [hcl]
  rcases hcw with rfl | rfl <;> rfl

theorem run_sev_low (check : String → Bool) (mcp : Bool) (msg d : String)
    (c : Classification) (h : isBlank msg = false)
    (hcw : c = .error ∨ c = .warning) :
    runWorkflow check ⟨.ok c, mcp, .ok d, .ok .low⟩ (initial_state msg) =
      .ok (ticketRun check mcp msg d c) := by
  have hcl := classify_log_ok c mcp (.ok d) (.ok .low) msg h
  unfold runWorkflow
  rw [hcl]
  rcases hcw with rfl | rfl <;> rfl

theorem run_sev_raises (check : String → Bool) (mcp : Bool) (msg d : String)
    (c : Classification) (h : isBlank msg = false)
    (hcw : c = .error ∨ c = .warning) :
    runWorkflow check ⟨.ok c, mcp, .ok d, .error ()⟩ (initial_state msg) =
      .ok (ticketRun check mcp msg d c) := by
  have hcl := classify_log_ok c mcp (.ok d) (.error ()) msg h
  unfold runWorkflow
  rw [hcl]
  rcases hcw with rfl | rfl <;> rfl

/-- Characterization of completed runs: every run that returns a result
took one of the four paths of the graph and produced the corresponding
run shape. -/
theorem run_cases (check : String → Bool) (env : Env) (msg : String)
    (r : RunResult) (h : runWorkflow check env (initial_state msg) = .ok r) :
    (isBlank msg = true ∧ r = blankRun msg) ∨
    (isBlank msg = false ∧ env.classifyResult = .ok .normal ∧ r = normalRun msg) ∨
    (∃ c d, isBlank msg = false ∧ (c = .error ∨ c = .warning) ∧
      env.classifyResult = .ok c ∧ env.diagnoseResult = .ok d ∧
      ((env.severityResult = .ok .high ∧ r = alertRun env.mcpToolsOk msg d c) ∨
       ((env.severityResult = .ok .low ∨ env.severityResult = .error ()) ∧
        r = ticketRun check env.mcpToolsOk msg d c))) := by
  obtain ⟨cr, mcp, dr, sr⟩ := env
  by_cases hb : isBlank msg = true
  · left
    rw [run_blank check _ msg hb] at h
    exact ⟨hb, (Except.ok.inj h).symm⟩
  · rw [Bool.not_eq_true] at hb
    cases cr with
    | error e =>
      cases e
      rw [run_classify_raises check _ msg hb rfl] at h
      exact Except.noConfusion h
    | ok c =>
      cases c with
      | normal =>
        right; left
        rw [run_normal check mcp dr sr msg hb] at h
        exact ⟨hb, rfl, (Except.ok.inj h).symm⟩
      | error =>
        cases dr with
        | error e =>
          cases e
          rw [run_diagnose_raises check mcp sr msg .error hb (Or.inl rfl)] at h
          exact Except.noConfusion h
        | ok d =>
          right; right
          refine ⟨.error, d, hb, Or.inl rfl, rfl, rfl, ?_⟩
          cases sr with
          | error e =>
            cases e
            rw [run_sev_raises check mcp msg d .error hb (Or.inl rfl)] at h
            exact Or.inr ⟨Or.inr rfl, (Except.ok.inj h).symm⟩
          | ok sv =>
            cases sv with
            | high =>
              rw [run_sev_high check mcp msg d .error hb (Or.inl rfl)] at h
              exact Or.inl ⟨rfl, (Except.ok.inj h).symm⟩
            | low =>
              rw [run_sev_low check mcp msg d .error hb (Or.inl rfl)] at h
              exact Or.inr ⟨Or.inl rfl, (Except.ok.inj h).symm⟩
      | warning =>
        cases dr with
        | error e =>
          cases e
          rw [run_diagnose_raises check mcp sr msg .warning hb (Or.inr rfl)] at h
          exact Except.noConfusion h
        | ok d =>
          right; right
          refine ⟨.warning, d, hb, Or.inr rfl, rfl, rfl, ?_⟩
          cases sr with
          | error e =>
            cases e
            rw [run_sev_raises check mcp msg d .warning hb (Or.inr rfl)] at h
            exact Or.inr ⟨Or.inr rfl, (Except.ok.inj h).symm⟩
          | ok sv =>
            cases sv with
            | high =>
              rw [run_sev_high check mcp msg d .warning hb (Or.inr rfl)] at h
              exact Or.inl ⟨rfl, (Except.ok.inj h).symm⟩
            | low =>
              rw [run_sev_low check mcp msg d .warning hb (Or.inr rfl)] at h
              exact Or.inr ⟨Or.inl rfl, (Except.ok.inj h).symm⟩



theorem str_fact_normal_not_ew :
    ¬(("normal" : String) = "error" ∨ ("normal" : String) = "warning") := by decide

theorem str_fact_error_ne_normal : ("error" : String) ≠ "normal" := by decide

theorem str_fact_warning_ne_normal : ("warning" : String) ≠ "normal" := by decide

theorem str_fact_empty_ne_high : ("" : String) ≠ "high" := by decide

theorem str_fact_empty_ne_low : ("" : String) ≠ "low" := by decide

theorem str_fact_high_ne_empty : ("high" : String) ≠ "" := by decide

theorem str_fact_low_ne_empty : ("low" : String) ≠ "" := by decide

theorem str_fact_high_ne_low : ("high" : String) ≠ "low" := by decide

theorem str_fact_low_ne_high : ("low" : String) ≠ "high" := by decide

/-- Claim C1, counterexample: the claim states that `severity = low`
implies `action_taken = ticket` and that error/warning classifications
leave a non-empty diagnosis, but a concrete completed run (classified
error, empty diagnosis text from the model, severity call raising) ends
with `action_taken = "github_ticket"`, which differs from `"ticket"`,
and with an empty diagnosis. -/
theorem routing_exact_labels_counterexample :
    (process_log_message ⟨.ok .error, false, .ok "", .error ()⟩
        "ERROR: Database connection failed").map
        (fun r => (r.final.classification, r.final.diagnosis, r.final.severity,
                   r.final.action_taken)) =
      .ok ("error", "", "low", "github_ticket") ∧
    ("github_ticket" : String) ≠ "ticket" :=
  ⟨rfl, by decide⟩

/-- Claim C1, amended: routing correctness over a completed run. If
`classification = normal` then `action_taken = "none"`; if
`classification` is error or warning then `severity` is non-empty and
`diagnosis` is exactly the text returned by the diagnosis model call
(hence non-empty whenever that text is); if `severity = high` then
`action_taken = "slack_alert"`; if `severity = low` then
`action_taken = "github_ticket"`. -/
theorem routing_correctness_amended (env : Env) (msg : String) (r : RunResult)
    (h : process_log_message env msg = .ok r) :
    (r.final.classification = "normal" → r.final.action_taken = "none") ∧
    ((r.final.classification = "error" ∨ r.final.classification = "warning") →
      r.final.severity ≠ "" ∧ env.diagnoseResult = .ok r.final.diagnosis) ∧
    (r.final.severity = "high" → r.final.action_taken = "slack_alert") ∧
    (r.final.severity = "low" → r.final.action_taken = "github_ticket") := by
  rcases run_cases _ env msg r h with ⟨hb, rfl⟩ | ⟨hb, hcr, rfl⟩ |
    ⟨c, d, hb, hcw, hcr, hdr, ⟨hsr, rfl⟩ | ⟨hsr, rfl⟩⟩
  · exact ⟨fun _ => rfl, fun hx => absurd hx str_fact_normal_not_ew,
      fun hx => absurd hx str_fact_empty_ne_high,
      fun hx => absurd hx str_fact_empty_ne_low⟩
  · exact ⟨fun _ => rfl, fun hx => absurd hx str_fact_normal_not_ew,
      fun hx => absurd hx str_fact_empty_ne_high,
      fun hx => absurd hx str_fact_empty_ne_low⟩
  · rcases hcw with rfl | rfl
    · exact ⟨fun hx => absurd hx str_fact_error_ne_normal,
        fun _ => ⟨str_fact_high_ne_empty, hdr⟩, fun _ => rfl,
        fun hx => absurd hx str_fact_high_ne_low⟩
    · exact ⟨fun hx => absurd hx str_fact_warning_ne_normal,
        fun _ => ⟨str_fact_high_ne_empty, hdr⟩, fun _ => rfl,
        fun hx => absurd hx str_fact_high_ne_low⟩
  · rcases hcw with rfl | rfl
    · exact ⟨fun hx => absurd hx str_fact_error_ne_normal,
        fun _ => ⟨str_fact_low_ne_empty, hdr⟩,
        fun hx => absurd hx str_fact_low_ne_high, fun _ => rfl⟩
    · exact ⟨fun hx => absurd hx str_fact_warning_ne_normal,
        fun _ => ⟨str_fact_low_ne_empty, hdr⟩,
        fun hx => absurd hx str_fact_low_ne_high, fun _ => rfl⟩

/-- Claim C1, witness: the amended routing theorem applied to a concrete
high-severity run. -/
theorem routing_correctness_amended_witness :
    (alertRun true "ERROR: Database connection failed" "Connection pool exhausted"
      Classification.error).final.action_taken = "slack_alert" :=
  (routing_correctness_amended
    ⟨.ok .error, true, .ok "Connection pool exhausted", .ok .high⟩
    "ERROR: Database connection failed"
    (alertRun true "ERROR: Database connection failed" "Connection pool exhausted"
      Classification.error) rfl).2.2.1 rfl



/-- Claim C2: for every run that reaches the severity stage (non-blank
input, classification error or warning, diagnosis call succeeded), if the
structured severity call raises, the failure is not propagated: the run
completes with `severity = "low"` and continues to the action router,
which executes the ticket stage. -/
theorem severity_raise_defaults_low (env : Env) (msg d : String) (c : Classification)
    (hb : isBlank msg = false) (hcr : env.classifyResult = .ok c)
    (hcw : c = .error ∨ c = .warning) (hdr : env.diagnoseResult = .ok d)
    (hsr : env.severityResult = .error ()) :
    ∃ r, process_log_message env msg = .ok r ∧ r.final.severity = "low" ∧
      (Node.manage_ticket, ({ action_taken := some "github_ticket" } : Update)) ∈ r.trace := by
  obtain ⟨cr, mcp, dr, sr⟩ := env
  change cr = Except.ok c at hcr
  change dr = Except.ok d at hdr
  change sr = Except.error () at hsr
  subst hcr; subst hdr; subst hsr
  exact ⟨ticketRun check_existing_github_issue mcp msg d c,
    run_sev_raises check_existing_github_issue mcp msg d c hb hcw, rfl,
    List.Mem.tail _ (List.Mem.tail _ (List.Mem.tail _ (List.Mem.head _)))⟩

/-- Claim C2, witness: the severity-default theorem applied to a concrete
run whose severity call raises. -/
theorem severity_raise_defaults_low_witness :
    ∃ r, process_log_message ⟨.ok .error, true, .ok "Connection pool exhausted", .error ()⟩
        "ERROR: Database connection failed" = .ok r ∧ r.final.severity = "low" ∧
      (Node.manage_ticket, ({ action_taken := some "github_ticket" } : Update)) ∈ r.trace :=
  severity_raise_defaults_low
    ⟨.ok .error, true, .ok "Connection pool exhausted", .error ()⟩
    "ERROR: Database connection failed" "Connection pool exhausted" .error
    rfl rfl (Or.inl rfl) rfl rfl

/-- Claim C3: for every input that is empty or whitespace-only, the run
completes with `classification = "normal"` and `action_taken = "none"`,
and performs zero model-backend invocations. -/
theorem blank_input_no_model_calls (env : Env) (msg : String)
    (hb : isBlank msg = true) :
    ∃ r, process_log_message env msg = .ok r ∧
      r.final.classification = "normal" ∧ r.final.action_taken = "none" ∧
      r.effects.countP Effect.isModelCall = 0 :=
  ⟨blankRun msg, run_blank check_existing_github_issue env msg hb, rfl, rfl, rfl⟩

/-- Claim C3, witness: the blank-input theorem applied to the whitespace
input consisting of three spaces. -/
theorem blank_input_no_model_calls_witness :
    ∃ r, process_log_message ⟨.ok .normal, true, .ok "", .ok .low⟩ "   " = .ok r ∧
      r.final.classification = "normal" ∧ r.final.action_taken = "none" ∧
      r.effects.countP Effect.isModelCall = 0 :=
  blank_input_no_model_calls ⟨.ok .normal, true, .ok "", .ok .low⟩ "   " rfl

/-- Claim C4: write-once invariant. In any completed run, each of
`classification`, `diagnosis`, `severity` and `action_taken` is written
by at most one stage; no stage ever writes `log_message`, which equals
the initial input in the final state; and no node appears twice on the
executed path. -/
theorem write_once_invariant (env : Env) (msg : String) (r : RunResult)
    (h : process_log_message env msg = .ok r) :
    r.trace.countP (fun p => p.2.classification.isSome) ≤ 1 ∧
    r.trace.countP (fun p => p.2.diagnosis.isSome) ≤ 1 ∧
    r.trace.countP (fun p => p.2.severity.isSome) ≤ 1 ∧
    r.trace.countP (fun p => p.2.action_taken.isSome) ≤ 1 ∧
    r.trace.countP (fun p => p.2.log_message.isSome) = 0 ∧
    r.final.log_message = msg ∧
    (r.trace.map Prod.fst).Nodup := by
  rcases run_cases _ env msg r h with ⟨hb, rfl⟩ | ⟨hb, hcr, rfl⟩ |
    ⟨c, d, hb, hcw, hcr, hdr, ⟨hsr, rfl⟩ | ⟨hsr, rfl⟩⟩
  · exact ⟨Nat.le_refl 1, Nat.zero_le 1, Nat.zero_le 1, Nat.le_refl 1, rfl, rfl,
      by show List.Nodup [Node.classify, Node.set_no_action]; decide⟩
  · exact ⟨Nat.le_refl 1, Nat.zero_le 1, Nat.zero_le 1, Nat.le_refl 1, rfl, rfl,
      by show List.Nodup [Node.classify, Node.set_no_action]; decide⟩
  · exact ⟨Nat.le_refl 1, Nat.le_refl 1, Nat.le_refl 1, Nat.le_refl 1, rfl, rfl,
      by show List.Nodup [Node.classify, Node.diagnose, Node.assess_severity,
            Node.alert_sre]; decide⟩
  · exact ⟨Nat.le_refl 1, Nat.le_refl 1, Nat.le_refl 1, Nat.le_refl 1, rfl, rfl,
      by show List.Nodup [Node.classify, Node.diagnose, Node.assess_severity,
            Node.manage_ticket]; decide⟩

/-- Claim C4, witness: the write-once theorem applied to a concrete
ticket-path run. -/
theorem write_once_invariant_witness :
    ((ticketRun check_existing_github_issue false "WARNING: disk usage at 85%"
        "Disk usage approaching limit" Classification.warning).trace.map Prod.fst).Nodup :=
  (write_once_invariant ⟨.ok .warning, false, .ok "Disk usage approaching limit", .ok .low⟩
    "WARNING: disk usage at 85%"
    (ticketRun check_existing_github_issue false "WARNING: disk usage at 85%"
      "Disk usage approaching limit" Classification.warning) rfl).2.2.2.2.2.2

/-- Claim C5: if the model-backend call of the classification stage
raises (the input being non-blank, so the call happens), the failure
propagates to the caller of the pipeline entry point: the run yields no
final state and in particular no `action_taken`. -/
theorem classify_raise_propagates (env : Env) (msg : String)
    (hb : isBlank msg = false) (hcr : env.classifyResult = .error ()) :
    process_log_message env msg = .error () :=
  run_classify_raises check_existing_github_issue env msg hb hcr

/-- Claim C5, witness: the propagation theorem applied to a concrete run
whose classification call raises. -/
theorem classify_raise_propagates_witness :
    process_log_message ⟨.error (), true, .ok "", .ok .low⟩
      "ERROR: Database connection failed" = .error () :=
  classify_raise_propagates ⟨.error (), true, .ok "", .ok .low⟩
    "ERROR: Database connection failed" rfl rfl

/-- Claim C6, counterexample: the claim states the final `action_taken`
is one of the exact values `alert`, `ticket`, `none`, but a concrete
completed high-severity run ends with `action_taken = "slack_alert"`,
which is none of them. -/
theorem action_enum_counterexample :
    (process_log_message ⟨.ok .error, true, .ok "Connection pool exhausted", .ok .high⟩
        "ERROR: Database connection failed").map (fun r => r.final.action_taken) =
      .ok "slack_alert" ∧
    ¬(("slack_alert" : String) = "alert" ∨ ("slack_alert" : String) = "ticket" ∨
      ("slack_alert" : String) = "none") :=
  ⟨rfl, by decide⟩

/-- Claim C6, amended: for every completed run, the final `action_taken`
is an element of the enum actually written by the terminal stages,
`slack_alert | github_ticket | none`. -/
theorem action_enum_amended (env : Env) (msg : String) (r : RunResult)
    (h : process_log_message env msg = .ok r) :
    r.final.action_taken = "slack_alert" ∨ r.final.action_taken = "github_ticket" ∨
      r.final.action_taken = "none" := by
  rcases run_cases _ env msg r h with ⟨hb, rfl⟩ | ⟨hb, hcr, rfl⟩ |
    ⟨c, d, hb, hcw, hcr, hdr, ⟨hsr, rfl⟩ | ⟨hsr, rfl⟩⟩
  · exact Or.inr (Or.inr rfl)
  · exact Or.inr (Or.inr rfl)
  · exact Or.inl rfl
  · exact Or.inr (Or.inl rfl)

/-- Claim C6, witness: the enum theorem applied to a concrete blank-input
run. -/
theorem action_enum_amended_witness :
    (blankRun " ").final.action_taken = "slack_alert" ∨
    (blankRun " ").final.action_taken = "github_ticket" ∨
    (blankRun " ").final.action_taken = "none" :=
  action_enum_amended ⟨.ok .normal, true, .ok "", .ok .low⟩ " " (blankRun " ") rfl



/-- Claim C7, counterexample: the claim states the created issue title is
the first 50 characters of the log message, but on a concrete ticket-path
state the created title carries an `"[Auto] "` prefix and `"..."` suffix
and therefore differs from the bare 50-character slice. -/
theorem ticket_title_counterexample :
    (manage_github_ticket check_existing_github_issue
        ⟨"ERROR: Database connection failed", "error", "Connection pool exhausted",
         "low", ""⟩).2 =
      [.checkIssue "Connection pool exhausted",
       .createIssue "[Auto] ERROR: Database connection failed..."
         "## Log Message\nERROR: Database connection failed\n\n## Diagnosis\nConnection pool exhausted"] ∧
    ("[Auto] ERROR: Database connection failed..." : String) ≠
      strTake "ERROR: Database connection failed" 50 :=
  ⟨rfl, by decide⟩

/-- Claim C7, amended: when the ticket stage creates a new issue (no
existing match found), the issue title is `"[Auto] "` followed by the
first 50 characters of the log message followed by `"..."`, and the
issue body contains both the raw log message and the diagnosis text as
substrings. -/
theorem ticket_title_body_amended (check : String → Bool) (state : AgentState)
    (h : check state.diagnosis = false) :
    ∃ body,
      (manage_github_ticket check state).2 =
        [.checkIssue state.diagnosis,
         .createIssue ("[Auto] " ++ strTake state.log_message 50 ++ "...") body] ∧
      (∃ pre suf, body = pre ++ (state.log_message ++ suf)) ∧
      (∃ pre, body = pre ++ state.diagnosis) := by
  refine ⟨"## Log Message\n" ++ state.log_message ++ "\n\n## Diagnosis\n" ++ state.diagnosis,
    ?_, ⟨"## Log Message\n", "\n\n## Diagnosis\n" ++ state.diagnosis, ?_⟩,
    ⟨"## Log Message\n" ++ state.log_message ++ "\n\n## Diagnosis\n", rfl⟩⟩
  · unfold manage_github_ticket
    rw [h]
    rfl
  · simp [String.append_assoc]

/-- Claim C7, witness: the title/body theorem applied to a concrete state
with the stub lookup (which reports no match). -/
theorem ticket_title_body_amended_witness :
    ∃ body,
      (manage_github_ticket check_existing_github_issue
          ⟨"ERROR: Database connection failed", "error", "Connection pool exhausted",
           "low", ""⟩).2 =
        [.checkIssue "Connection pool exhausted",
         .createIssue ("[Auto] " ++ strTake "ERROR: Database connection failed" 50 ++ "...") body] ∧
      (∃ pre suf, body = pre ++ ("ERROR: Database connection failed" ++ suf)) ∧
      (∃ pre, body = pre ++ "Connection pool exhausted") :=
  ticket_title_body_amended check_existing_github_issue
    ⟨"ERROR: Database connection failed", "error", "Connection pool exhausted",
     "low", ""⟩ rfl

/-- Claim C8: for every run entering the ticket stage (over an arbitrary
existing-issue collaborator `check`): if the lookup, queried with the
diagnosis text, reports an existing match, then no create-issue call
occurs; and in both branches the stage sets
`action_taken = "github_ticket"`. -/
theorem ticket_duplicate_suppression (check : String → Bool) (env : Env)
    (msg : String) (r : RunResult)
    (h : runWorkflow check env (initial_state msg) = .ok r)
    (hm : Node.manage_ticket ∈ r.trace.map Prod.fst) :
    (check r.final.diagnosis = true → ∀ t b, Effect.createIssue t b ∉ r.effects) ∧
    r.final.action_taken = "github_ticket" := by
  rcases run_cases check env msg r h with ⟨hb, rfl⟩ | ⟨hb, hcr, rfl⟩ |
    ⟨c, d, hb, hcw, hcr, hdr, ⟨hsr, rfl⟩ | ⟨hsr, rfl⟩⟩
  · exact absurd hm (by show Node.manage_ticket ∉ [Node.classify, Node.set_no_action]; decide)
  · exact absurd hm (by show Node.manage_ticket ∉ [Node.classify, Node.set_no_action]; decide)
  · exact absurd hm (by
      show Node.manage_ticket ∉
        [Node.classify, Node.diagnose, Node.assess_severity, Node.alert_sre]
      decide)
  · refine ⟨fun hchk t b hmem => ?_, rfl⟩
    have hchk2 : check d = true := hchk
    simp [ticketRun, diagEffects, hchk2] at hmem

/-- Claim C8, witness: the suppression theorem applied to a concrete run
whose lookup always reports a match: no create-issue effect occurs and
the action is still the ticket. -/
theorem ticket_duplicate_suppression_witness :
    Effect.createIssue "t" "b" ∉
      (ticketRun (fun _ => true) true "ERROR: request failed" "duplicate issue"
        Classification.error).effects ∧
    (ticketRun (fun _ => true) true "ERROR: request failed" "duplicate issue"
      Classification.error).final.action_taken = "github_ticket" :=
  ⟨(ticket_duplicate_suppression (fun _ => true)
      ⟨.ok .error, true, .ok "duplicate issue", .error ()⟩ "ERROR: request failed"
      (ticketRun (fun _ => true) true "ERROR: request failed" "duplicate issue"
        Classification.error) rfl (by decide)).1 rfl "t" "b",
   (ticket_duplicate_suppression (fun _ => true)
      ⟨.ok .error, true, .ok "duplicate issue", .error ()⟩ "ERROR: request failed"
      (ticketRun (fun _ => true) true "ERROR: request failed" "duplicate issue"
        Classification.error) rfl (by decide)).2⟩

/-- Claim C9: for every run entering the diagnosis stage, if acquisition
of the research tool set fails, the stage absorbs the failure: the model
is invoked with no tool bindings and empty tool guidance, the returned
text still becomes the diagnosis, and the run completes rather than
aborting (for every outcome of the subsequent severity call). -/
theorem diagnose_tool_failure_absorbed (env : Env) (msg d : String) (c : Classification)
    (hb : isBlank msg = false) (hcr : env.classifyResult = .ok c)
    (hcw : c = .error ∨ c = .warning) (hmcp : env.mcpToolsOk = false)
    (hdr : env.diagnoseResult = .ok d) :
    ∃ r, process_log_message env msg = .ok r ∧
      Effect.llmDiagnose false "" (diagnosisPrompt c.toLabel msg "") ∈ r.effects ∧
      r.final.diagnosis = d := by
  obtain ⟨cr, mcp, dr, sr⟩ := env
  change cr = Except.ok c at hcr
  change mcp = false at hmcp
  change dr = Except.ok d at hdr
  subst hcr; subst hmcp; subst hdr
  cases sr with
  | error e =>
    cases e
    exact ⟨ticketRun check_existing_github_issue false msg d c,
      run_sev_raises check_existing_github_issue false msg d c hb hcw,
      List.Mem.tail _ (List.Mem.head _), rfl⟩
  | ok sv =>
    cases sv with
    | high =>
      exact ⟨alertRun false msg d c,
        run_sev_high check_existing_github_issue false msg d c hb hcw,
        List.Mem.tail _ (List.Mem.head _), rfl⟩
    | low =>
      exact ⟨ticketRun check_existing_github_issue false msg d c,
        run_sev_low check_existing_github_issue false msg d c hb hcw,
        List.Mem.tail _ (List.Mem.head _), rfl⟩

/-- Claim C9, witness: the tool-failure theorem applied to a concrete
warning run with tool acquisition failing. -/
theorem diagnose_tool_failure_absorbed_witness :
    ∃ r, process_log_message ⟨.ok .warning, false, .ok "Threshold near limit", .ok .low⟩
        "WARNING: disk usage at 85%" = .ok r ∧
      Effect.llmDiagnose false ""
        (diagnosisPrompt Classification.warning.toLabel "WARNING: disk usage at 85%" "") ∈
        r.effects ∧
      r.final.diagnosis = "Threshold near limit" :=
  diagnose_tool_failure_absorbed ⟨.ok .warning, false, .ok "Threshold near limit", .ok .low⟩
    "WARNING: disk usage at 85%" "Threshold near limit" .warning
    rfl rfl (Or.inr rfl) rfl rfl

/-- Claim C10: in this build the existing-issue lookup is the stub that
always returns false, so every run that executes the ticket stage
performs exactly one create-issue call, and the lookup is queried with
the final diagnosis text. -/
theorem stub_lookup_single_create (env : Env) (msg : String) (r : RunResult)
    (h : process_log_message env msg = .ok r)
    (hm : Node.manage_ticket ∈ r.trace.map Prod.fst) :
    r.effects.countP Effect.isCreateIssue = 1 ∧
    Effect.checkIssue r.final.diagnosis ∈ r.effects := by
  rcases run_cases _ env msg r h with ⟨hb, rfl⟩ | ⟨hb, hcr, rfl⟩ |
    ⟨c, d, hb, hcw, hcr, hdr, ⟨hsr, rfl⟩ | ⟨hsr, rfl⟩⟩
  · exact absurd hm (by show Node.manage_ticket ∉ [Node.classify, Node.set_no_action]; decide)
  · exact absurd hm (by show Node.manage_ticket ∉ [Node.classify, Node.set_no_action]; decide)
  · exact absurd hm (by
      show Node.manage_ticket ∉
        [Node.classify, Node.diagnose, Node.assess_severity, Node.alert_sre]
      decide)
  · exact ⟨rfl,
      List.Mem.tail _ (List.Mem.tail _ (List.Mem.tail _ (List.Mem.head _)))⟩

/-- Claim C10, witness: the single-create theorem applied to a concrete
ticket-path run with the stub lookup. -/
theorem stub_lookup_single_create_witness :
    (ticketRun check_existing_github_issue true "ERROR: Database connection failed"
        "Connection refused by database" Classification.error).effects.countP
      Effect.isCreateIssue = 1 ∧
    Effect.checkIssue (ticketRun check_existing_github_issue true
        "ERROR: Database connection failed" "Connection refused by database"
        Classification.error).final.diagnosis ∈
      (ticketRun check_existing_github_issue true "ERROR: Database connection failed"
        "Connection refused by database" Classification.error).effects :=
  stub_lookup_single_create
    ⟨.ok .error, true, .ok "Connection refused by database", .ok .low⟩
    "ERROR: Database connection failed"
    (ticketRun check_existing_github_issue true "ERROR: Database connection failed"
      "Connection refused by database" Classification.error) rfl (by decide)

end LogMonitor
